import Mathlib

/-!
Verification development for the language-tutor backend
(src/src-tauri/src/lib.rs).  The Rust module is shallowly embedded:
JSON values become an inductive type, the filesystem becomes explicit
state records, and the two external-process invocations become values
describing their observable outcomes.  Each definition carries the name
of the Rust function it embeds.
-/

namespace Tutor

/-- Embedding of serde_json Value restricted to the constructors the
transcript reader inspects.  Objects are association lists; a lookup
takes the first binding for a key, matching map semantics on the
well-formed (duplicate-free) records the reader consumes. -/
inductive Json where
  | null : Json
  | bool (b : Bool) : Json
  | num (n : Int) : Json
  | str (s : List Char) : Json
  | arr (items : List Json) : Json
  | obj (fields : List (List Char × Json)) : Json

/-- Embeds serde_json Value::get on objects: the value bound to the key,
none when the value is not an object or the key is absent. -/
def Json.get (j : Json) (key : List Char) : Option Json :=
  match j with
  | .obj fields =>
    match fields.find? (fun f => f.1 == key) with
    | some f => some f.2
    | none => none
  | _ => none

/-- Embeds Value::as_str. -/
def Json.as_str (j : Json) : Option (List Char) :=
  match j with
  | .str s => some s
  | _ => none

/-- Embeds Value::as_array. -/
def Json.as_array (j : Json) : Option (List Json) :=
  match j with
  | .arr items => some items
  | _ => none

/-- Embeds get_message_content (lib.rs 191-200): requires the top-level
"type" tag and the nested message "role" tag to both equal `role`, then
returns the "content" value of the message. -/
def get_message_content (json : Json) (role : List Char) : Option Json := do
  let t ← json.get ("type".toList)
  let ts ← t.as_str
  if ts == role then
    let msg ← json.get ("message".toList)
    let r ← msg.get ("role".toList)
    let rs ← r.as_str
    if rs == role then
      msg.get ("content".toList)
    else
      none
  else
    none

/-- Embeds extract_user_message (lib.rs 202-219): string content yields
the text; array content is checked for a tool_result item and discarded
either way (the Rust code returns None for every non-string content). -/
def extract_user_message (json : Json) : Option (List Char) := do
  let content ← get_message_content json ("user".toList)
  match content.as_str with
  | some s => some s
  | none =>
    match content.as_array with
    | some items =>
      if items.any (fun item =>
          (item.get ("type".toList)).bind Json.as_str == some ("tool_result".toList)) then
        none
      else
        none
    | none => none

/-- Embeds the loop body of extract_assistant_message (lib.rs 224-230).
The Rust `?` operators on item.get("type"), .as_str() and
item.get("text") abort the whole extraction with None, while a
non-string "text" value merely moves on to the next item. -/
def first_text : List Json → Option (List Char)
  | [] => none
  | item :: rest => do
    let t ← item.get ("type".toList)
    let ts ← t.as_str
    if ts == ("text".toList) then
      let tx ← item.get ("text".toList)
      match tx.as_str with
      | some s => some s
      | none => first_text rest
    else
      first_text rest

/-- Embeds extract_assistant_message (lib.rs 221-233): assistant-tagged
record with array content; the array is scanned by first_text. -/
def extract_assistant_message (json : Json) : Option (List Char) := do
  let content ← get_message_content json ("assistant".toList)
  let items ← content.as_array
  first_text items

/-- Embeds the ChatMessage struct (lib.rs 247-251). -/
structure ChatMessage where
  role : List Char
  content : List Char
deriving DecidableEq, Repr

/-- Messages contributed by one line of the log.  A line is given as the
result of serde_json::from_str: none for a syntactically invalid line
(which the Rust loop skips with continue). -/
def process_line (line : Option Json) : List ChatMessage :=
  match line with
  | none => []
  | some json =>
    (match extract_user_message json with
     | some text => [⟨"user".toList, text⟩]
     | none => []) ++
    (match extract_assistant_message json with
     | some text => [⟨"assistant".toList, text⟩]
     | none => [])

/-- Embeds the line loop of parse_chat_messages_from_jsonl
(lib.rs 158-185) over the parsed lines of the file. -/
def parse_chat_messages_from_jsonl (lines : List (Option Json)) : List ChatMessage :=
  match lines with
  | [] => []
  | line :: rest => process_line line ++ parse_chat_messages_from_jsonl rest

/-- Models Rust char::is_alphanumeric (true on every char with Unicode
property Alphabetic or Number).  Exact on ASCII; of the non-ASCII
Unicode table it carries the ranges this development exercises (CJK
Unified Ideographs, Hiragana, Katakana, Hangul syllables), all of which
are Alphabetic in Unicode. -/
def char_is_alphanumeric (c : Char) : Bool :=
  (97 ≤ c.toNat && c.toNat ≤ 122) ||    -- a-z
  (65 ≤ c.toNat && c.toNat ≤ 90) ||     -- A-Z
  (48 ≤ c.toNat && c.toNat ≤ 57) ||     -- 0-9
  (0x4E00 ≤ c.toNat && c.toNat ≤ 0x9FFF) ||  -- CJK Unified Ideographs
  (0x3041 ≤ c.toNat && c.toNat ≤ 0x3096) ||  -- Hiragana
  (0x30A1 ≤ c.toNat && c.toNat ≤ 0x30FA) ||  -- Katakana
  (0xAC00 ≤ c.toNat && c.toNat ≤ 0xD7A3)     -- Hangul syllables

/-- Models Rust char::to_lowercase on the characters accepted by the
validator: ASCII uppercase maps down by 32, everything else in the
modelled ranges is caseless and maps to itself. -/
def rust_char_to_lowercase (c : Char) : Char :=
  if 65 ≤ c.toNat && c.toNat ≤ 90 then Char.ofNat (c.toNat + 32) else c

/-- Embeds str::to_lowercase as the character-wise map (no accepted
character has a multi-char or context-dependent lowercasing). -/
def to_lowercase (s : List Char) : List Char :=
  s.map rust_char_to_lowercase

/-- Models Rust char::to_uppercase on the same region: ASCII lowercase
maps up by 32, everything else uppercases to itself (the Rust iterator
yields exactly one char on this region). -/
def rust_char_to_uppercase (c : Char) : List Char :=
  if 97 ≤ c.toNat && c.toNat ≤ 122 then [Char.ofNat (c.toNat - 32)] else [c]

/-- Embeds capitalize_first (lib.rs 305-311): uppercase the first char
(a char-to-string expansion in Rust, hence the append), keep the rest. -/
def capitalize_first (s : List Char) : List Char :=
  match s with
  | [] => []
  | c :: rest => rust_char_to_uppercase c ++ rest

/-- Helper for substring containment: does `needle` begin `s`. -/
def begins_with : List Char → List Char → Bool
  | _, [] => true
  | [], _ :: _ => false
  | c :: s, d :: needle => c == d && begins_with s needle

/-- Embeds str::contains for a substring pattern. -/
def contains_sub : List Char → List Char → Bool
  | [], needle => needle.isEmpty
  | c :: s, needle => begins_with (c :: s) needle || contains_sub s needle

/-- Embeds validate_language_name (lib.rs 287-298): rejects the empty
name, path traversal or separators, and any character outside
alphanumeric, space, hyphen. -/
def validate_language_name (language : List Char) : Except (List Char) Unit :=
  if language.isEmpty then
    .error ("Language name cannot be empty".toList)
  else if contains_sub language (".".toList ++ ".".toList) ||
      language.contains '/' || language.contains '\\' then
    .error ("Language name contains invalid characters".toList)
  else if !(language.all (fun c => char_is_alphanumeric c || c == ' ' || c == '-')) then
    .error ("Language name can only contain letters, numbers, spaces, and hyphens".toList)
  else
    .ok ()

/-- Path join with the platform main separator (lib.rs uses PathBuf::join). -/
def path_join (base name : List Char) : List Char :=
  base ++ '/' :: name

/-- Embeds get_data_dir (lib.rs 283-285): the data directory under the
executable directory, here an explicit parameter. -/
def get_data_dir (exe_dir : List Char) : List Char :=
  path_join exe_dir ("data".toList)

/-- Embeds get_language_dir (lib.rs 300-303): validate, then the
lower-cased identifier as a directory under the data root. -/
def get_language_dir (exe_dir : List Char) (language : List Char) :
    Except (List Char) (List Char) :=
  match validate_language_name language with
  | .error e => .error e
  | .ok _ => .ok (path_join (get_data_dir exe_dir) (to_lowercase language))

/-- Recursion core of replace_sub.  The fuel only serves structural
termination: every step consumes at least one input character, so any
fuel of at least the input length gives the untruncated result. -/
def replace_sub_go (pat repl : List Char) : Nat → List Char → List Char
  | _, [] => []
  | 0, s => s
  | fuel + 1, c :: rest =>
    if 0 < pat.length && begins_with (c :: rest) pat then
      repl ++ replace_sub_go pat repl fuel (rest.drop (pat.length - 1))
    else
      c :: replace_sub_go pat repl fuel rest

/-- Embeds str::replace for the non-empty placeholder patterns used by
the templates (the Rust empty-pattern behaviour is never exercised: every
call site passes a fixed non-empty literal). -/
def replace_sub (s pat repl : List Char) : List Char :=
  replace_sub_go pat repl s.length s

/-- Embeds the LanguageInfo struct (lib.rs 45-49). -/
structure LanguageInfo where
  native_script : List Char
  romanization : List Char
  notes : List Char

/-- Embeds DEFAULT_LANGUAGE_INFO (lib.rs 51-60). -/
def DEFAULT_LANGUAGE_INFO : LanguageInfo where
  native_script := "Native Script".toList
  romanization := "none".toList
  notes := ("## Language-Specific Considerations\n\n- Research and add language-specific grammar patterns as you encounter them\n- Pay attention to any unique features of this language\n- Adapt greeting and teaching style to cultural norms\n- Start with the simplest possible greeting and self-introduction").toList

/-- Embeds get_language_info (lib.rs 62-132): metadata keyed by the
lower-cased language name, with a default fallback. -/
def get_language_info (language : List Char) : LanguageInfo :=
  let l := to_lowercase language
  if l == ("chinese".toList) || l == ("mandarin".toList) then
    { native_script := "汉字".toList
      romanization := "pinyin".toList
      notes := ("## Chinese-Specific Considerations\n\n- **Tones**: Pay attention to tone usage in learner\x27s pinyin (if provided)\n- **Characters vs Pinyin**: Track if learner uses characters or pinyin\n- **Measure words (量词)**: Track these as grammar constructs\n- **Common structures**: 是...的, 把-sentences, 被-passive, 了/过/着 aspects\n- **Cold start**: Use \"👋 你好 (nǐ hǎo)\" - one word with emoji and pinyin").toList }
  else if l == ("korean".toList) then
    { native_script := "한글".toList
      romanization := "none".toList
      notes := ("## Korean-Specific Considerations\n\n- **Politeness levels**: Track which speech levels the learner knows (합쇼체, 해요체, 해체, etc.)\n- **Particles**: Track particles (은/는, 이/가, 을/를, etc.) as grammar\n- **Verb conjugation**: Track tense and politeness conjugation patterns\n- **Honorifics**: Note when learner uses/should use honorific forms\n- **Cold start**: Use \"👋 안녕 (annyeong)\" - one word with emoji and romanization").toList }
  else if l == ("japanese".toList) then
    { native_script := "日本語".toList
      romanization := "romaji".toList
      notes := ("## Japanese-Specific Considerations\n\n- **Politeness levels**: Track です/ます vs casual forms\n- **Particles**: Track particles (は, が, を, に, で, etc.) as grammar\n- **Verb groups**: Note which verb conjugation patterns learner knows\n- **Kanji vs Kana**: Track which kanji the learner knows\n- **Cold start**: Use \"👋 こんにちは (konnichiwa)\" - one word with emoji and romaji").toList }
  else if l == ("spanish".toList) then
    { native_script := "Español".toList
      romanization := "none".toList
      notes := ("## Spanish-Specific Considerations\n\n- **Verb conjugation**: Track which tenses and moods learner knows\n- **Ser vs Estar**: Track as separate grammar constructs\n- **Subjunctive**: Introduce gradually, it\x27s complex\n- **Gender agreement**: Track as grammar construct\n- **Cold start**: Use \"👋 Hola\" - one word with emoji").toList }
  else if l == ("french".toList) then
    { native_script := "Français".toList
      romanization := "none".toList
      notes := ("## French-Specific Considerations\n\n- **Verb conjugation**: Track which tenses and moods learner knows\n- **Gender and articles**: Track as grammar constructs\n- **Liaisons**: Note pronunciation patterns\n- **Formal vs informal (tu/vous)**: Track which the learner uses\n- **Cold start**: Use \"👋 Bonjour\" - one word with emoji").toList }
  else if l == ("german".toList) then
    { native_script := "Deutsch".toList
      romanization := "none".toList
      notes := ("## German-Specific Considerations\n\n- **Cases**: Track nominative, accusative, dative, genitive separately\n- **Verb position**: Track V2 rule, subordinate clause order\n- **Gender and articles**: Track der/die/das patterns\n- **Formal vs informal (Sie/du)**: Track which the learner uses\n- **Cold start**: Use \"👋 Hallo\" - one word with emoji").toList }
  else
    DEFAULT_LANGUAGE_INFO

/-- Modelled from the spec: the tutor-instruction template lives in
templates/tutor-instructions.md, which is not under src; per the spec it
is free text with four substitution placeholders (language name, native
script, romanization label, language-specific notes). -/
def TUTOR_TEMPLATE : List Char :=
  ("# Language Tutor Instructions\n\nLanguage: \x7b\x7bLANGUAGE_NAME\x7d\x7d (\x7b\x7bLANGUAGE_NATIVE\x7d\x7d)\nRomanization: \x7b\x7bROMANIZATION\x7d\x7d\n\n\x7b\x7bLANGUAGE_SPECIFIC_NOTES\x7d\x7d\n").toList

/-- Embeds VOCABULARY_TEMPLATE (lib.rs 18-21). -/
def VOCABULARY_TEMPLATE : List Char :=
  ("\x7b\n  \"language\": \"\x7b\x7bLANGUAGE_NAME\x7d\x7d\",\n  \"words\": []\n\x7d").toList

/-- Embeds GRAMMAR_TEMPLATE (lib.rs 23-26). -/
def GRAMMAR_TEMPLATE : List Char :=
  ("\x7b\n  \"language\": \"\x7b\x7bLANGUAGE_NAME\x7d\x7d\",\n  \"rules\": []\n\x7d").toList

/-- Embeds USER_OVERRIDES_TEMPLATE (lib.rs 28-36). -/
def USER_OVERRIDES_TEMPLATE : List Char :=
  ("\x7b\n  \"language\": \"\x7b\x7bLANGUAGE_NAME\x7d\x7d\",\n  \"mode\": \"learning\",\n  \"preferences\": \x7b\n    \"new_vocab_per_exchange\": 2,\n    \"show_romanization\": true\n  \x7d,\n  \"notes\": \"\"\n\x7d").toList

/-- Embeds the LanguageConfig struct (lib.rs 239-245). -/
structure LanguageConfig where
  language : List Char
  native_script : List Char
  romanization : List Char
  started : List Char

/-- Embeds serde_json::to_string_pretty on a LanguageConfig: the four
string fields in declaration order with two-space indentation (none of
the written values contains a character that serde_json escapes). -/
def render_config (c : LanguageConfig) : List Char :=
  ("\x7b\n  \"language\": \"".toList) ++ c.language ++
  ("\",\n  \"native_script\": \"".toList) ++ c.native_script ++
  ("\",\n  \"romanization\": \"".toList) ++ c.romanization ++
  ("\",\n  \"started\": \"".toList) ++ c.started ++
  ("\"\n\x7d".toList)

/-- Filesystem state: absolute directory paths in creation order and
files as (absolute path, content) bindings in write order.  Every write
the embedded operations perform targets a freshly created directory, so
appending a binding is fs::write. -/
structure FS where
  dirs : List (List Char)
  files : List (List Char × List Char)
deriving DecidableEq, Repr

/-- Embeds write_language_file (lib.rs 342-345). -/
def write_language_file (fs : FS) (dir filename content : List Char) : FS :=
  { fs with files := fs.files ++ [(path_join dir filename, content)] }

/-- Embeds generate_language_files (lib.rs 347-375): renders the five
artifact files into the language directory.  `today` is the
Local::now() date already formatted as YYYY-MM-DD. -/
def generate_language_files (fs : FS) (lang_dir language today : List Char) : FS :=
  let info := get_language_info language
  let claude_md :=
    replace_sub (replace_sub (replace_sub (replace_sub TUTOR_TEMPLATE
      ("\x7b\x7bLANGUAGE_NAME\x7d\x7d".toList) language)
      ("\x7b\x7bLANGUAGE_NATIVE\x7d\x7d".toList) info.native_script)
      ("\x7b\x7bROMANIZATION\x7d\x7d".toList) info.romanization)
      ("\x7b\x7bLANGUAGE_SPECIFIC_NOTES\x7d\x7d".toList) info.notes
  let fs := write_language_file fs lang_dir ("CLAUDE.md".toList) claude_md
  let vocab := replace_sub VOCABULARY_TEMPLATE ("\x7b\x7bLANGUAGE_NAME\x7d\x7d".toList) language
  let fs := write_language_file fs lang_dir ("vocabulary.json".toList) vocab
  let grammar := replace_sub GRAMMAR_TEMPLATE ("\x7b\x7bLANGUAGE_NAME\x7d\x7d".toList) language
  let fs := write_language_file fs lang_dir ("grammar.json".toList) grammar
  let overrides := replace_sub USER_OVERRIDES_TEMPLATE ("\x7b\x7bLANGUAGE_NAME\x7d\x7d".toList) language
  let fs := write_language_file fs lang_dir ("user-overrides.json".toList) overrides
  let config := render_config
    { language := language
      native_script := info.native_script
      romanization := info.romanization
      started := today }
  write_language_file fs lang_dir ("config.json".toList) config

/-- Embeds bootstrap_language (lib.rs 381-395): resolve the directory,
fail before any mutation when it already exists, otherwise create it
and write the five artifacts.  Returns the possibly-updated filesystem
next to the command result. -/
def bootstrap_language (exe_dir : List Char) (fs : FS) (language today : List Char) :
    FS × Except (List Char) (List Char) :=
  match get_language_dir exe_dir language with
  | .error e => (fs, .error e)
  | .ok lang_dir =>
    if fs.dirs.contains lang_dir then
      (fs, .error (("Language \x27".toList) ++ language ++ ("\x27 already exists".toList)))
    else
      let fs := { fs with dirs := fs.dirs ++ [lang_dir] }
      let fs := generate_language_files fs lang_dir language today
      (fs, .ok (("Successfully bootstrapped ".toList) ++ language))

/-- The entry name of a directory when it is an immediate child of `base`
(read_dir lists immediate children only). -/
def child_name (base d : List Char) : Option (List Char) :=
  if begins_with d (base ++ ['/']) then
    let name := d.drop (base.length + 1)
    if name.contains '/' || name.isEmpty then none else some name
  else
    none

/-- Embeds list_languages (lib.rs 509-530): the directory entries of the
data root, first character capitalized.  An absent data root has no
child directories, so the empty case of the Rust early return
coincides with filtering an empty list. -/
def list_languages (exe_dir : List Char) (fs : FS) : List (List Char) :=
  (fs.dirs.filterMap (child_name (get_data_dir exe_dir))).map capitalize_first

/-- Embeds delete_language (lib.rs 532-543): NotFound when the directory
is absent, otherwise remove the subtree (the directory, its
subdirectories and every file under it). -/
def delete_language (exe_dir : List Char) (fs : FS) (language : List Char) :
    FS × Except (List Char) (List Char) :=
  match get_language_dir exe_dir language with
  | .error e => (fs, .error e)
  | .ok lang_dir =>
    if fs.dirs.contains lang_dir then
      let fs :=
        { dirs := fs.dirs.filter (fun d =>
            !(d == lang_dir || begins_with d (lang_dir ++ ['/'])))
          files := fs.files.filter (fun f =>
            !(begins_with f.1 (lang_dir ++ ['/']))) }
      (fs, .ok (("Deleted ".toList) ++ language))
    else
      (fs, .error (("Language \x27".toList) ++ language ++ ("\x27 does not exist".toList)))

/-- Embeds get_claude_project_dir (lib.rs 315-336): strip the Windows
extended-path prefix, encode the canonical path (volume-root separator
to a double hyphen, remaining separators to single hyphens) and place
it under home/.claude/projects.  Canonicalize is the identity here:
the call sites pass the already-canonical absolute workspace path. -/
def get_claude_project_dir (home canonical_dir : List Char) : List Char :=
  let p :=
    if begins_with canonical_dir ("\\\\?\\".toList) then canonical_dir.drop 4
    else canonical_dir
  let encoded :=
    replace_sub (replace_sub (replace_sub p (":\\".toList) ("--".toList))
      ("\\".toList) ("-".toList)) ("/".toList) ("-".toList)
  path_join (path_join (path_join home (".claude".toList)) ("projects".toList)) encoded

/-- One directory entry as find_latest_jsonl_file observes it: its path,
its extension, and its modification time when the metadata call
succeeds. -/
structure FileEntry where
  path : List Char
  ext : Option (List Char)
  mtime : Option Nat
deriving DecidableEq, Repr

/-- Ordering on optional modification times, None first, as Rust derives
it on Option of SystemTime. -/
def mtime_le : Option Nat → Option Nat → Bool
  | none, _ => true
  | some _, none => false
  | some a, some b => a ≤ b

/-- Stable insertion step for sort_entries. -/
def insert_entry (le : FileEntry → FileEntry → Bool) (x : FileEntry) :
    List FileEntry → List FileEntry
  | [] => [x]
  | y :: ys => if le x y then x :: y :: ys else y :: insert_entry le x ys

/-- Stable sort used to model Vec::sort_by. -/
def sort_entries (le : FileEntry → FileEntry → Bool) : List FileEntry → List FileEntry
  | [] => []
  | x :: xs => insert_entry le x (sort_entries le xs)

/-- Embeds find_latest_jsonl_file (lib.rs 138-156): keep the entries
with the jsonl extension, none when there are none, otherwise the first
entry after a stable sort by modification time descending (the Rust
comparator is b_time.cmp(a_time)). -/
def find_latest_jsonl_file (entries : List FileEntry) : Option FileEntry :=
  let jsonl_files := entries.filter (fun e => e.ext == some ("jsonl".toList))
  if jsonl_files.isEmpty then
    none
  else
    (sort_entries (fun a b => mtime_le b.mtime a.mtime) jsonl_files).head?

/-- Embeds get_chat_history (lib.rs 545-563).  The world is given by
the existence predicate on directories, the entry listing of the
project directory, and the parsed lines of each log file (one Option
Json per line, none for a line serde_json rejects). -/
def get_chat_history (exe_dir home language : List Char)
    (dir_exists : List Char → Bool)
    (dir_entries : List Char → List FileEntry)
    (file_lines : List Char → List (Option Json)) :
    Except (List Char) (List ChatMessage) :=
  match get_language_dir exe_dir language with
  | .error e => .error e
  | .ok lang_dir =>
    if !(dir_exists lang_dir) then
      .error (("Language \x27".toList) ++ language ++ ("\x27 not set up".toList))
    else
      let claude_project_dir := get_claude_project_dir home lang_dir
      if !(dir_exists claude_project_dir) then
        .ok []
      else
        match find_latest_jsonl_file (dir_entries claude_project_dir) with
        | some entry => .ok (parse_chat_messages_from_jsonl (file_lines entry.path))
        | none => .ok []

/-- Embeds str::trim on the whitespace the logs contain (ASCII
whitespace; Char.isWhitespace covers space, tab, CR, LF). -/
def trim (s : List Char) : List Char :=
  ((s.dropWhile Char.isWhitespace).reverse.dropWhile Char.isWhitespace).reverse

/-- Observable outcome of one external-process invocation attempt:
the spawn_blocking task failed to join, the command failed to spawn, or
the process completed with an exit status and captured streams. -/
inductive SpawnOutcome where
  | joinError (e : List Char)
  | spawnError (e : List Char)
  | completed (success : Bool) (stdout stderr : List Char)
deriving DecidableEq, Repr

/-- Embeds the result handling of run_responder_agent (lib.rs 453-480):
join and spawn failures become typed errors, success yields trimmed
stdout, a non-zero exit yields trimmed stderr as a typed error. -/
def run_responder_agent (outcome : SpawnOutcome) : Except (List Char) (List Char) :=
  match outcome with
  | .joinError e => .error (("Task join error: ".toList) ++ e)
  | .spawnError e => .error (("Failed to run claude: ".toList) ++ e)
  | .completed true out _ => .ok (trim out)
  | .completed false _ err => .error (("Claude error: ".toList) ++ trim err)

/-- Observable outcome of the detached tracker invocation
(lib.rs 423-451): tracker-directory creation failure, bounded-timeout
expiry, task-join failure, spawn/command failure, or completion (any
exit status: a completed tracker run is not inspected further). -/
inductive TrackerOutcome where
  | dirError (e : List Char)
  | timeout
  | joinError (e : List Char)
  | commandError (e : List Char)
  | completed (success : Bool) (stdout stderr : List Char)
deriving DecidableEq, Repr

/-- Embeds spawn_tracker_agent (lib.rs 423-451) as its only observable
effect on the application: the log lines written for each outcome.
No outcome carries a value back to the caller. -/
def tracker_log : TrackerOutcome → List (List Char)
  | .dirError e => [("[Tracker] Failed to create tracker directory: ".toList) ++ e]
  | .timeout => [("[Tracker] Timed out after 60s".toList)]
  | .joinError e => [("[Tracker] Task join error: ".toList) ++ e]
  | .commandError e => [("[Tracker] Command error: ".toList) ++ e]
  | .completed _ _ _ => []

/-- Embeds send_message (lib.rs 482-495): resolve and check the
workspace, fire the tracker without awaiting it, await the responder
and return its result.  The pair is (caller-visible result, tracker log
lines); the tracker outcome reaches only the second component. -/
def send_message (exe_dir : List Char) (dir_exists : List Char → Bool)
    (message language : List Char)
    (tracker : TrackerOutcome) (responder : SpawnOutcome) :
    Except (List Char) (List Char) × List (List Char) :=
  match get_language_dir exe_dir language with
  | .error e => (.error e, [])
  | .ok lang_dir =>
    if !(dir_exists lang_dir) then
      (.error (("Language \x27".toList) ++ language ++
        ("\x27 not set up. Please bootstrap it first.".toList)), [])
    else
      (run_responder_agent responder, tracker_log tracker)

/-- Embeds the vocabulary record the tracker maintains (word entry with
ease factor, interval in days, repetition count, next-review day). -/
structure VocabItem where
  ease : ℚ
  interval : ℤ
  repetitions : ℕ
  next_review : ℤ
deriving DecidableEq, Repr

/-- Embeds the SM-2 correct-use transition stated in TRACKER_PROMPT
(lib.rs 414-419): repetitions += 1; interval 1 at one repetition, 6 at
two, round(interval × ease) from three on; next_review = today +
interval days.  `today` is the current day number. -/
def applyCorrectUse (today : ℤ) (item : VocabItem) : VocabItem :=
  let reps := item.repetitions + 1
  let ivl : ℤ :=
    if reps = 1 then 1
    else if reps = 2 then 6
    else if 3 ≤ reps then round ((item.interval : ℚ) * item.ease)
    else item.interval
  { item with
      repetitions := reps
      interval := ivl
      next_review := today + ivl }

/-! Record-shape predicates used to state the transcript claims. -/

/-- A well-formed user-text record: top-level type "user", message role
"user", plain string content. -/
def is_user_text_record (j : Json) (s : List Char) : Prop :=
  j.get ("type".toList) = some (.str ("user".toList)) ∧
  ∃ m, j.get ("message".toList) = some m ∧
    m.get ("role".toList) = some (.str ("user".toList)) ∧
    m.get ("content".toList) = some (.str s)

/-- A well-formed assistant-text record: top-level type "assistant",
message role "assistant", list content whose head is a text item with
string text `t`. -/
def is_assistant_text_record (j : Json) (t : List Char) : Prop :=
  j.get ("type".toList) = some (.str ("assistant".toList)) ∧
  ∃ m, j.get ("message".toList) = some m ∧
    m.get ("role".toList) = some (.str ("assistant".toList)) ∧
    ∃ it rest, m.get ("content".toList) = some (.arr (it :: rest)) ∧
      it.get ("type".toList) = some (.str ("text".toList)) ∧
      it.get ("text".toList) = some (.str t)

/-- A user record whose content is a list containing a tool_result item. -/
def is_tool_result_record (j : Json) : Prop :=
  j.get ("type".toList) = some (.str ("user".toList)) ∧
  ∃ m, j.get ("message".toList) = some m ∧
    m.get ("role".toList) = some (.str ("user".toList)) ∧
    ∃ items, m.get ("content".toList) = some (.arr items) ∧
      ∃ it ∈ items, it.get ("type".toList) = some (.str ("tool_result".toList))

theorem get_message_content_of (j m c : Json) (role : List Char)
    (h1 : j.get ("type".toList) = some (.str role))
    (h2 : j.get ("message".toList) = some m)
    (h3 : m.get ("role".toList) = some (.str role))
    (h4 : m.get ("content".toList) = some c) :
    get_message_content j role = some c := by
  simp_all [get_message_content, Json.as_str]

theorem get_message_content_ne (j : Json) (role s : List Char)
    (h1 : j.get ("type".toList) = some (.str s))
    (hne : (s == role) = false) :
    get_message_content j role = none := by
  simp_all [get_message_content, Json.as_str]

theorem extract_user_of_text (j : Json) (s : List Char)
    (h : is_user_text_record j s) :
    extract_user_message j = some s := by
  obtain ⟨h1, m, h2, h3, h4⟩ := h
  have hc := get_message_content_of j m (.str s) ("user".toList) h1 h2 h3 h4
  simp_all [extract_user_message, Json.as_str]

theorem extract_assistant_none_of_user (j : Json)
    (h1 : j.get ("type".toList) = some (.str ("user".toList))) :
    extract_assistant_message j = none := by
  have hc := get_message_content_ne j ("assistant".toList) ("user".toList) h1 (by decide)
  simp_all [extract_assistant_message]

theorem extract_user_none_of_assistant (j : Json)
    (h1 : j.get ("type".toList) = some (.str ("assistant".toList))) :
    extract_user_message j = none := by
  have hc := get_message_content_ne j ("user".toList) ("assistant".toList) h1 (by decide)
  simp_all [extract_user_message]

theorem extract_assistant_of_text (j : Json) (t : List Char)
    (h : is_assistant_text_record j t) :
    extract_assistant_message j = some t := by
  obtain ⟨h1, m, h2, h3, it, rest, h4, h5, h6⟩ := h
  have hc := get_message_content_of j m (.arr (it :: rest)) ("assistant".toList) h1 h2 h3 h4
  simp_all [extract_assistant_message, Json.as_array, first_text, Json.as_str]

theorem extract_user_none_of_tool_result (j : Json)
    (h : is_tool_result_record j) :
    extract_user_message j = none := by
  obtain ⟨h1, m, h2, h3, items, h4, _⟩ := h
  have hc := get_message_content_of j m (.arr items) ("user".toList) h1 h2 h3 h4
  simp_all [extract_user_message, Json.as_str, Json.as_array]

theorem parse_chat_messages_append (ls1 ls2 : List (Option Json)) :
    parse_chat_messages_from_jsonl (ls1 ++ ls2) =
      parse_chat_messages_from_jsonl ls1 ++ parse_chat_messages_from_jsonl ls2 := by
  induction ls1 with
  | nil => simp [parse_chat_messages_from_jsonl]
  | cons l rest ih => simp [parse_chat_messages_from_jsonl, ih]

/-! Concrete records used by the witnesses. -/

def uMsg : Json :=
  .obj [(("role".toList), .str ("user".toList)),
        (("content".toList), .str ("hola".toList))]

def uRecord : Json :=
  .obj [(("type".toList), .str ("user".toList)), (("message".toList), uMsg)]

def aTextItem : Json :=
  .obj [(("type".toList), .str ("text".toList)),
        (("text".toList), .str ("hi".toList))]

def aTextItem2 : Json :=
  .obj [(("type".toList), .str ("text".toList)),
        (("text".toList), .str ("second".toList))]

def aMsg : Json :=
  .obj [(("role".toList), .str ("assistant".toList)),
        (("content".toList), .arr [aTextItem, aTextItem2])]

def aRecord : Json :=
  .obj [(("type".toList), .str ("assistant".toList)), (("message".toList), aMsg)]

def toolItem : Json :=
  .obj [(("type".toList), .str ("tool_result".toList))]

def trMsg : Json :=
  .obj [(("role".toList), .str ("user".toList)),
        (("content".toList), .arr [toolItem])]

def trRecord : Json :=
  .obj [(("type".toList), .str ("user".toList)), (("message".toList), trMsg)]

/-- C1: a log holding, in order, a well-formed user-text record, a
well-formed assistant-text record, a tool-result record and a
syntactically invalid line parses to exactly the user turn followed by
the assistant turn; in general the output order is the input line
order (parsing distributes over concatenation of the line list). -/
theorem C1_transcript_extraction (u a tr : Json) (su ta : List Char)
    (hu : is_user_text_record u su)
    (ha : is_assistant_text_record a ta)
    (htr : is_tool_result_record tr) :
    parse_chat_messages_from_jsonl [some u, some a, some tr, none] =
      [⟨("user".toList), su⟩, ⟨("assistant".toList), ta⟩] ∧
    ∀ ls1 ls2, parse_chat_messages_from_jsonl (ls1 ++ ls2) =
      parse_chat_messages_from_jsonl ls1 ++ parse_chat_messages_from_jsonl ls2 := by
  refine ⟨?_, parse_chat_messages_append⟩
  have h1 := extract_user_of_text u su hu
  have h2 := extract_assistant_none_of_user u hu.1
  have h3 := extract_assistant_of_text a ta ha
  have h4 := extract_user_none_of_assistant a ha.1
  have h5 := extract_user_none_of_tool_result tr htr
  have h6 := extract_assistant_none_of_user tr htr.1
  simp [parse_chat_messages_from_jsonl, process_line, h1, h2, h3, h4, h5, h6]

/-- C1 witness: the four concrete records of the claimed shapes parse
to exactly the two turns in order. -/
theorem C1_transcript_extraction_witness :
    parse_chat_messages_from_jsonl [some uRecord, some aRecord, some trRecord, none] =
      [⟨("user".toList), ("hola".toList)⟩, ⟨("assistant".toList), ("hi".toList)⟩] :=
  (C1_transcript_extraction uRecord aRecord trRecord ("hola".toList) ("hi".toList)
    ⟨rfl, uMsg, rfl, rfl, rfl⟩
    ⟨rfl, aMsg, rfl, rfl, aTextItem, [aTextItem2], rfl, rfl, rfl⟩
    ⟨rfl, trMsg, rfl, rfl, [toolItem], rfl, toolItem, List.mem_cons_self _ _, rfl⟩).1

/-- A "text"-tagged item carrying no "text" field at all. -/
def emptyTextItem : Json :=
  .obj [(("type".toList), .str ("text".toList))]

def c6Msg : Json :=
  .obj [(("role".toList), .str ("assistant".toList)),
        (("content".toList), .arr [emptyTextItem, aTextItem])]

def c6Record : Json :=
  .obj [(("type".toList), .str ("assistant".toList)), (("message".toList), c6Msg)]

/-- Formalisation of the C6 claim wording: the text of the first list
item tagged "text" that has a present string text value. -/
def spec_first_text_item (items : List Json) : Option (List Char) :=
  (items.filterMap (fun it =>
    match (it.get ("type".toList)).bind Json.as_str,
        (it.get ("text".toList)).bind Json.as_str with
    | some ty, some tx => if ty == ("text".toList) then some tx else none
    | _, _ => none)).head?

/-- C6 counterexample: a record whose top-level tag is "assistant",
whose message role is "assistant" and whose list content is
[text item with no "text" field, text item with text "hi"].  The first
list item tagged "text" with a present string text value carries "hi",
so the claim predicts an assistant turn with content "hi", but the code
aborts on the field-less text item and produces no turn at all. -/
theorem C6_counterexample :
    c6Record.get ("type".toList) = some (.str ("assistant".toList)) ∧
    c6Msg.get ("role".toList) = some (.str ("assistant".toList)) ∧
    c6Msg.get ("content".toList) = some (.arr [emptyTextItem, aTextItem]) ∧
    spec_first_text_item [emptyTextItem, aTextItem] = some ("hi".toList) ∧
    extract_assistant_message c6Record = none ∧
    process_line (some c6Record) = [] :=
  ⟨rfl, rfl, rfl, rfl, rfl, rfl⟩

/-- C6 (amended): for an assistant-tagged record with assistant role and
list content, the turn content is computed by an ordered scan
(first_text): a first item tagged "text" with a string "text" value
supplies the content and later items are ignored; an item tagged other
than "text", or a "text" item whose "text" value is present but not a
string, is skipped; an item with a missing or non-string "type" tag, or
a "text" item with no "text" field, aborts the scan and the record
yields no turn; an empty scan yields no turn. -/
theorem C6_assistant_first_text (j m : Json) (items : List Json)
    (h1 : j.get ("type".toList) = some (.str ("assistant".toList)))
    (h2 : j.get ("message".toList) = some m)
    (h3 : m.get ("role".toList) = some (.str ("assistant".toList)))
    (h4 : m.get ("content".toList) = some (.arr items)) :
    extract_assistant_message j = first_text items ∧
    first_text ([] : List Json) = none ∧
    (∀ it rest t, it.get ("type".toList) = some (.str ("text".toList)) →
      it.get ("text".toList) = some (.str t) →
      first_text (it :: rest) = some t) ∧
    (∀ it rest ty, it.get ("type".toList) = some (.str ty) →
      (ty == ("text".toList)) = false →
      first_text (it :: rest) = first_text rest) ∧
    (∀ it rest tx, it.get ("type".toList) = some (.str ("text".toList)) →
      it.get ("text".toList) = some tx → tx.as_str = none →
      first_text (it :: rest) = first_text rest) ∧
    (∀ it rest, it.get ("type".toList) = none → first_text (it :: rest) = none) ∧
    (∀ it rest ty, it.get ("type".toList) = some ty → ty.as_str = none →
      first_text (it :: rest) = none) ∧
    (∀ it rest, it.get ("type".toList) = some (.str ("text".toList)) →
      it.get ("text".toList) = none → first_text (it :: rest) = none) := by
  refine ⟨?_, rfl, ?_, ?_, ?_, ?_, ?_, ?_⟩
  · have hc := get_message_content_of j m (.arr items) ("assistant".toList) h1 h2 h3 h4
    simp_all [extract_assistant_message, Json.as_array]
  · intro it rest t ht htx
    simp_all [first_text, Json.as_str]
  · intro it rest ty ht hne
    simp_all [first_text, Json.as_str]
  · intro it rest tx ht htx hs
    simp_all [first_text, Json.as_str]
  · intro it rest ht
    simp_all [first_text]
  · intro it rest ty ht hs
    simp_all [first_text]
  · intro it rest ht htx
    simp_all [first_text, Json.as_str]

/-- C6 witness: the amended theorem applied to the concrete record of
the counterexample, exhibiting the aborting scan. -/
theorem C6_assistant_first_text_witness :
    extract_assistant_message c6Record = first_text [emptyTextItem, aTextItem] :=
  (C6_assistant_first_text c6Record c6Msg [emptyTextItem, aTextItem] rfl rfl rfl rfl).1

/-! Character and validation lemmas. -/

theorem char_toNat_ofNat (n : Nat) (h : n < 55296) : (Char.ofNat n).toNat = n := by
  have hv : n.isValidChar := Or.inl h
  simp [Char.ofNat, hv, Char.toNat, Char.ofNatAux, UInt32.toNat, BitVec.toNat_ofNatLt]

theorem contains_sub_head_mem (s : List Char) (d : Char) (ds : List Char)
    (h : contains_sub s (d :: ds) = true) : d ∈ s := by
  induction s with
  | nil => simp [contains_sub] at h
  | cons c cs ih =>
    simp only [contains_sub, begins_with, Bool.or_eq_true, Bool.and_eq_true] at h
    rcases h with ⟨h1, _⟩ | h2
    · exact (beq_iff_eq.mp h1) ▸ List.mem_cons_self c cs
    · exact List.mem_cons_of_mem c (ih h2)

theorem rust_lower_toNat_of_upper (c : Char) (h : 65 ≤ c.toNat ∧ c.toNat ≤ 90) :
    (rust_char_to_lowercase c).toNat = c.toNat + 32 := by
  have hb : (65 ≤ c.toNat && c.toNat ≤ 90) = true := by
    simp [Bool.and_eq_true, decide_eq_true_iff]; omega
  simp only [rust_char_to_lowercase, hb, if_true]
  exact char_toNat_ofNat _ (by omega)

theorem rust_lower_eq_self (c : Char) (h : ¬(65 ≤ c.toNat ∧ c.toNat ≤ 90)) :
    rust_char_to_lowercase c = c := by
  have hb : (65 ≤ c.toNat && c.toNat ≤ 90) = false := by
    simp [Bool.and_eq_true, decide_eq_true_iff]; omega
  simp [rust_char_to_lowercase, hb]

theorem rust_lower_idem (c : Char) :
    rust_char_to_lowercase (rust_char_to_lowercase c) = rust_char_to_lowercase c := by
  by_cases h : 65 ≤ c.toNat ∧ c.toNat ≤ 90
  · have ht := rust_lower_toNat_of_upper c h
    exact rust_lower_eq_self _ (by omega)
  · rw [rust_lower_eq_self c h]
    exact rust_lower_eq_self c h

theorem rust_lower_allowed (c : Char)
    (h : char_is_alphanumeric c = true ∨ c = ' ' ∨ c = '-') :
    char_is_alphanumeric (rust_char_to_lowercase c) = true ∨
      rust_char_to_lowercase c = ' ' ∨ rust_char_to_lowercase c = '-' := by
  by_cases hu : 65 ≤ c.toNat ∧ c.toNat ≤ 90
  · have ht := rust_lower_toNat_of_upper c hu
    left
    simp only [char_is_alphanumeric, ht, Bool.or_eq_true, Bool.and_eq_true,
      decide_eq_true_iff]
    omega
  · rw [rust_lower_eq_self c hu]
    exact h

theorem validate_ok_of (language : List Char)
    (hne : language ≠ [])
    (hall : ∀ c ∈ language, char_is_alphanumeric c = true ∨ c = ' ' ∨ c = '-') :
    validate_language_name language = .ok () := by
  have hchar : ∀ c ∈ language, ¬(c = '.' ∨ c = '/' ∨ c = '\\') := by
    intro c hc hbad
    have := hall c hc
    rcases hbad with rfl | rfl | rfl <;> simp_all [char_is_alphanumeric]
  have h1 : language.isEmpty = false := by
    cases language with
    | nil => exact absurd rfl hne
    | cons c cs => rfl
  have h2 : contains_sub language ('.' :: '.' :: []) = false := by
    by_contra hx
    have := contains_sub_head_mem language '.' _ (Bool.of_not_eq_false hx)
    exact hchar '.' this (Or.inl rfl)
  have h5 : language.all (fun c => char_is_alphanumeric c || c == ' ' || c == '-') = true := by
    rw [List.all_eq_true]
    intro c hc
    rcases hall c hc with h | h | h <;> simp [h]
  simp [validate_language_name, h1, h2, h5]
  exact ⟨fun hm => hchar '/' hm (Or.inr (Or.inl rfl)),
    fun hm => hchar '\\' hm (Or.inr (Or.inr rfl))⟩

theorem validate_ok_elim (language : List Char)
    (h : validate_language_name language = .ok ()) :
    language ≠ [] ∧
      ∀ c ∈ language, char_is_alphanumeric c = true ∨ c = ' ' ∨ c = '-' := by
  unfold validate_language_name at h
  split at h
  · exact absurd h (by simp)
  · split at h
    · exact absurd h (by simp)
    · split at h
      · exact absurd h (by simp)
      · rename_i hn1 hn2 hn3
        refine ⟨?_, ?_⟩
        · intro hnil
          subst hnil
          exact hn1 rfl
        · intro c hc
          have hall : (language.all fun c =>
              char_is_alphanumeric c || c == ' ' || c == '-') = true := by
            revert hn3
            cases language.all fun c => char_is_alphanumeric c || c == ' ' || c == '-' <;>
              simp
          have := List.all_eq_true.mp hall c hc
          simp only [Bool.or_eq_true, beq_iff_eq] at this
          tauto

theorem validate_error_of_bad (language : List Char)
    (h : language = [] ∨ contains_sub language ('.' :: '.' :: []) = true ∨
      language.contains '/' = true ∨ language.contains '\\' = true ∨
      ∃ c ∈ language, char_is_alphanumeric c = false ∧ c ≠ ' ' ∧ c ≠ '-') :
    ∃ e, validate_language_name language = .error e := by
  by_cases hok : validate_language_name language = .ok ()
  · exfalso
    obtain ⟨hne, hall⟩ := validate_ok_elim language hok
    rcases h with h | h | h | h | ⟨c, hc, hb1, hb2, hb3⟩
    · exact hne h
    · have hm := contains_sub_head_mem _ _ _ h
      exact (by decide : ¬(char_is_alphanumeric '.' = true ∨ '.' = ' ' ∨ '.' = '-'))
        (hall '.' hm)
    · have hm : '/' ∈ language := by simpa using h
      exact (by decide : ¬(char_is_alphanumeric '/' = true ∨ '/' = ' ' ∨ '/' = '-'))
        (hall '/' hm)
    · have hm : '\\' ∈ language := by simpa using h
      exact (by decide : ¬(char_is_alphanumeric '\\' = true ∨ '\\' = ' ' ∨ '\\' = '-'))
        (hall '\\' hm)
    · rcases hall c hc with hx | hx | hx
      · rw [hb1] at hx
        exact Bool.false_ne_true hx
      · exact hb2 hx
      · exact hb3 hx
  · cases hv : validate_language_name language with
    | error e => exact ⟨e, rfl⟩
    | ok u => cases u; exact absurd hv hok

/-- C2: every identifier that is empty, contains "..", contains a "/"
or "\" separator, or contains a character that is not alphanumeric,
space or hyphen is rejected by get_language_dir with a validation
error, and bootstrapping with it leaves the filesystem untouched. -/
theorem C2_validation_rejects (exe_dir today : List Char) (fs : FS) (language : List Char)
    (h : language = [] ∨ contains_sub language ('.' :: '.' :: []) = true ∨
      language.contains '/' = true ∨ language.contains '\\' = true ∨
      ∃ c ∈ language, char_is_alphanumeric c = false ∧ c ≠ ' ' ∧ c ≠ '-') :
    (∃ e, get_language_dir exe_dir language = .error e) ∧
    (∃ e, bootstrap_language exe_dir fs language today = (fs, .error e)) := by
  obtain ⟨e, he⟩ := validate_error_of_bad language h
  refine ⟨⟨e, ?_⟩, ⟨e, ?_⟩⟩
  · simp [get_language_dir, he]
  · simp [bootstrap_language, get_language_dir, he]

/-- C2 witness: the identifier "a/b" is rejected and bootstrap performs
no filesystem mutation on it. -/
theorem C2_validation_rejects_witness :
    (∃ e, get_language_dir ("/app".toList) ("a/b".toList) = .error e) ∧
    (∃ e, bootstrap_language ("/app".toList) ⟨[], []⟩ ("a/b".toList) ("2026-10-12".toList) =
      (⟨[], []⟩, .error e)) :=
  C2_validation_rejects ("/app".toList) ("2026-10-12".toList) ⟨[], []⟩ ("a/b".toList)
    (Or.inr (Or.inr (Or.inl (by decide))))

/-- C3: for every identifier accepted by validation, the resolved
directory equals the resolved directory of its lower-casing: the
identifier-to-directory map is case-insensitive. -/
theorem C3_case_insensitive (exe_dir language : List Char)
    (h : validate_language_name language = .ok ()) :
    get_language_dir exe_dir language = get_language_dir exe_dir (to_lowercase language) := by
  obtain ⟨hne, hall⟩ := validate_ok_elim language h
  have hne' : to_lowercase language ≠ [] := by
    simpa [to_lowercase] using hne
  have hall' : ∀ c ∈ to_lowercase language,
      char_is_alphanumeric c = true ∨ c = ' ' ∨ c = '-' := by
    intro c hc
    obtain ⟨d, hd, rfl⟩ := List.mem_map.mp hc
    exact rust_lower_allowed d (hall d hd)
  have h2 := validate_ok_of _ hne' hall'
  have hidem : to_lowercase (to_lowercase language) = to_lowercase language := by
    simp only [to_lowercase, List.map_map]
    exact List.map_congr_left (fun a _ => rust_lower_idem a)
  simp [get_language_dir, h, h2, hidem]

/-- C3 witness: "Japanese" and its lower-casing resolve to the same
directory. -/
theorem C3_case_insensitive_witness :
    get_language_dir ("/app".toList) ("Japanese".toList) =
      get_language_dir ("/app".toList) (to_lowercase ("Japanese".toList)) :=
  C3_case_insensitive ("/app".toList) ("Japanese".toList) rfl

/-- C10: validation is Unicode-wide, not ASCII-restricted: every
non-empty identifier free of "..", "/" and "\" whose characters are all
alphanumeric (in the Unicode sense the embedding models), spaces or
hyphens is accepted and mapped to the lower-cased directory under the
data root. -/
theorem C10_unicode_validation (exe_dir language : List Char)
    (hne : language ≠ [])
    (_hdot : contains_sub language ('.' :: '.' :: []) = false)
    (_hslash : language.contains '/' = false)
    (_hback : language.contains '\\' = false)
    (hall : ∀ c ∈ language, char_is_alphanumeric c = true ∨ c = ' ' ∨ c = '-') :
    get_language_dir exe_dir language =
      .ok (path_join (get_data_dir exe_dir) (to_lowercase language)) := by
  have hv := validate_ok_of language hne hall
  simp [get_language_dir, hv]

/-- C10 witness: "日本語" passes validation and resolves to a workspace
directory. -/
theorem C10_unicode_validation_witness :
    get_language_dir ("/app".toList) ("日本語".toList) =
      .ok (path_join (get_data_dir ("/app".toList)) (to_lowercase ("日本語".toList))) :=
  C10_unicode_validation ("/app".toList) ("日本語".toList)
    (by decide) (by decide) (by decide) (by decide) (by decide)

theorem generate_files_dirs (fs : FS) (d l t : List Char) :
    (generate_language_files fs d l t).dirs = fs.dirs := by
  simp [generate_language_files, write_language_file]

theorem bootstrap_ok_elim (exe_dir : List Char) (fs fs1 : FS)
    (language today msg : List Char)
    (h : bootstrap_language exe_dir fs language today = (fs1, .ok msg)) :
    ∃ lang_dir, get_language_dir exe_dir language = .ok lang_dir ∧
      fs.dirs.contains lang_dir = false ∧
      fs1.dirs = fs.dirs ++ [lang_dir] := by
  unfold bootstrap_language at h
  cases hv : get_language_dir exe_dir language with
  | error e =>
    rw [hv] at h
    simp at h
  | ok lang_dir =>
    rw [hv] at h
    dsimp only at h
    by_cases hc : fs.dirs.contains lang_dir = true
    · have hm : lang_dir ∈ fs.dirs := by simpa using hc
      simp [hm] at h
    · rw [if_neg (by simpa using hc)] at h
      rw [Prod.ext_iff] at h
      simp only at h
      refine ⟨lang_dir, rfl, by simpa using hc, ?_⟩
      rw [← h.1, generate_files_dirs]

/-- C4: bootstrap is not idempotent.  When the resolved directory is
already present, bootstrap_language returns the already-exists error
with the filesystem untouched, so a second bootstrap of an identifier
that just succeeded fails and leaves the artifacts of the first call
unmodified. -/
theorem C4_bootstrap_not_idempotent (exe_dir : List Char) (fs fs1 : FS)
    (language today today2 msg : List Char)
    (hsucc : bootstrap_language exe_dir fs language today = (fs1, .ok msg)) :
    (∀ (g : FS) (lang_dir : List Char),
      get_language_dir exe_dir language = .ok lang_dir →
      g.dirs.contains lang_dir = true →
      bootstrap_language exe_dir g language today2 =
        (g, .error (("Language \x27".toList) ++ language ++
          ("\x27 already exists".toList)))) ∧
    bootstrap_language exe_dir fs1 language today2 =
      (fs1, .error (("Language \x27".toList) ++ language ++
        ("\x27 already exists".toList))) := by
  have hpart1 : ∀ (g : FS) (lang_dir : List Char),
      get_language_dir exe_dir language = .ok lang_dir →
      g.dirs.contains lang_dir = true →
      bootstrap_language exe_dir g language today2 =
        (g, .error (("Language \x27".toList) ++ language ++
          ("\x27 already exists".toList))) := by
    intro g lang_dir hok hc
    have hm : lang_dir ∈ g.dirs := by simpa using hc
    simp [bootstrap_language, hok, hm]
  obtain ⟨lang_dir, hok, _, hdirs⟩ :=
    bootstrap_ok_elim exe_dir fs fs1 language today msg hsucc
  refine ⟨hpart1, hpart1 fs1 lang_dir hok ?_⟩
  rw [hdirs]
  simp

def fsBootZzW : FS :=
  (bootstrap_language ("x".toList) ⟨[], []⟩ ("zz".toList) ("2026-10-12".toList)).1

/-- C4 witness: after a concrete successful bootstrap of "zz", the
second bootstrap fails with the already-exists error and returns the
filesystem of the first call unchanged. -/
theorem C4_bootstrap_not_idempotent_witness :
    bootstrap_language ("x".toList) fsBootZzW ("zz".toList) ("2026-10-13".toList) =
      (fsBootZzW, .error (("Language \x27".toList) ++ ("zz".toList) ++
        ("\x27 already exists".toList))) :=
  (C4_bootstrap_not_idempotent ("x".toList) ⟨[], []⟩ fsBootZzW ("zz".toList)
    ("2026-10-12".toList) ("2026-10-13".toList)
    (("Successfully bootstrapped ".toList) ++ ("zz".toList)) rfl).2

theorem begins_with_append (p rest : List Char) : begins_with (p ++ rest) p = true := by
  induction p with
  | nil => cases rest <;> rfl
  | cons c cs ih => simp [begins_with, ih]

theorem child_name_path_join (base name : List Char)
    (h1 : name.contains '/' = false) (h2 : name ≠ []) :
    child_name base (path_join base name) = some name := by
  have hsplit : path_join base name = (base ++ ['/']) ++ name := by
    simp [path_join]
  have hb : begins_with (path_join base name) (base ++ ['/']) = true := by
    rw [hsplit]
    exact begins_with_append (base ++ ['/']) name
  have hd : (path_join base name).drop (base.length + 1) = name := by
    rw [hsplit]
    have hl : (base ++ ['/']).length = base.length + 1 := by simp
    rw [← hl, List.drop_left]
  have he : name.isEmpty = false := by
    cases name with
    | nil => exact absurd rfl h2
    | cons c cs => rfl
  simp [child_name, hb, hd, h1, he]
  intro hm
  rw [show ('/' ∈ name) = (name.contains '/' = true) from by simp] at hm
  rw [h1] at hm
  exact Bool.false_ne_true hm

theorem to_lowercase_no_slash (language : List Char)
    (hall : ∀ c ∈ language, char_is_alphanumeric c = true ∨ c = ' ' ∨ c = '-') :
    (to_lowercase language).contains '/' = false := by
  by_contra hx
  have hm : '/' ∈ to_lowercase language := by
    simpa using Bool.of_not_eq_false hx
  obtain ⟨d, hd, he⟩ := List.mem_map.mp hm
  have hallowed := rust_lower_allowed d (hall d hd)
  rw [he] at hallowed
  exact (by decide : ¬(char_is_alphanumeric '/' = true ∨ '/' = ' ' ∨ '/' = '-')) hallowed

theorem get_language_dir_ok_elim (exe_dir language lang_dir : List Char)
    (h : get_language_dir exe_dir language = .ok lang_dir) :
    validate_language_name language = .ok () ∧
      lang_dir = path_join (get_data_dir exe_dir) (to_lowercase language) := by
  unfold get_language_dir at h
  cases hv : validate_language_name language with
  | error e =>
    rw [hv] at h
    simp at h
  | ok u =>
    cases u
    rw [hv] at h
    simp only at h
    exact ⟨rfl, (Except.ok.injEq _ _).mp h |>.symm⟩

/-- C9 counterexample: for the identifier "eN" the claim predicts the
label "EN" (original casing with the first character capitalized), but
bootstrapping stores the lower-cased directory "en" and listing shows
"En". -/
theorem C9_counterexample :
    list_languages ("x".toList)
      (bootstrap_language ("x".toList) ⟨[], []⟩ ("eN".toList) ("2026-10-12".toList)).1 =
      [("En".toList)] ∧
    capitalize_first ("eN".toList) = ("EN".toList) ∧
    ("En".toList) ≠ ("EN".toList) :=
  ⟨rfl, by decide, by decide⟩

/-- C9 (amended): the label a successful bootstrap adds to the listing
is the lower-cased identifier with its first character capitalized;
interior casing of the original identifier is not preserved, because
the on-disk directory name is the lower-cased identifier. -/
theorem C9_label_lowercase_capitalized (exe_dir : List Char) (fs fs1 : FS)
    (language today msg : List Char)
    (hsucc : bootstrap_language exe_dir fs language today = (fs1, .ok msg)) :
    list_languages exe_dir fs1 =
      list_languages exe_dir fs ++ [capitalize_first (to_lowercase language)] := by
  obtain ⟨lang_dir, hok, _, hdirs⟩ :=
    bootstrap_ok_elim exe_dir fs fs1 language today msg hsucc
  obtain ⟨hval, rfl⟩ := get_language_dir_ok_elim exe_dir language lang_dir hok
  obtain ⟨hne, hall⟩ := validate_ok_elim language hval
  have hslash := to_lowercase_no_slash language hall
  have hlne : to_lowercase language ≠ [] := by
    simpa [to_lowercase] using hne
  have hname := child_name_path_join (get_data_dir exe_dir) (to_lowercase language)
    hslash hlne
  unfold list_languages
  rw [hdirs, List.filterMap_append]
  simp [hname]

def fsBootEnW : FS :=
  (bootstrap_language ("x".toList) ⟨[], []⟩ ("eN".toList) ("2026-10-12".toList)).1

/-- C9 witness: the amended theorem at the concrete bootstrap of "eN",
whose label is "En" = capitalize_first (to_lowercase "eN"). -/
theorem C9_label_lowercase_capitalized_witness :
    list_languages ("x".toList) fsBootEnW =
      list_languages ("x".toList) ⟨[], []⟩ ++
        [capitalize_first (to_lowercase ("eN".toList))] :=
  C9_label_lowercase_capitalized ("x".toList) ⟨[], []⟩ fsBootEnW ("eN".toList)
    ("2026-10-12".toList) (("Successfully bootstrapped ".toList) ++ ("eN".toList)) rfl

/-- C7: reading the latest transcript of an existing workspace never
fails on a missing conversation-log directory: when the derived project
directory does not exist the result is ok-empty, and when it exists but
holds no .jsonl file the result is again ok-empty. -/
theorem C7_missing_log_dir_empty (exe_dir home language lang_dir : List Char)
    (dir_exists : List Char → Bool)
    (dir_entries : List Char → List FileEntry)
    (file_lines : List Char → List (Option Json))
    (hok : get_language_dir exe_dir language = .ok lang_dir)
    (hexists : dir_exists lang_dir = true) :
    (dir_exists (get_claude_project_dir home lang_dir) = false →
      get_chat_history exe_dir home language dir_exists dir_entries file_lines = .ok []) ∧
    (dir_exists (get_claude_project_dir home lang_dir) = true →
      (∀ e ∈ dir_entries (get_claude_project_dir home lang_dir),
        e.ext ≠ some ("jsonl".toList)) →
      get_chat_history exe_dir home language dir_exists dir_entries file_lines = .ok []) := by
  constructor
  · intro hpd
    simp [get_chat_history, hok, hexists, hpd]
  · intro hpd hnoj
    have hfilter : (dir_entries (get_claude_project_dir home lang_dir)).filter
        (fun e => e.ext == some ("jsonl".toList)) = [] := by
      rw [List.filter_eq_nil_iff]
      intro e he
      simpa using hnoj e he
    have hfind : find_latest_jsonl_file
        (dir_entries (get_claude_project_dir home lang_dir)) = none := by
      unfold find_latest_jsonl_file
      rw [hfilter]
      rfl
    simp [get_chat_history, hok, hexists, hpd, hfind]

/-- C7 witness: a workspace whose directory exists but whose derived
log directory does not yields the empty history. -/
theorem C7_missing_log_dir_empty_witness :
    get_chat_history ("x".toList) ("h".toList) ("zz".toList)
      (fun d => d == ("x/data/zz".toList)) (fun _ => []) (fun _ => []) = .ok [] :=
  (C7_missing_log_dir_empty ("x".toList) ("h".toList) ("zz".toList) ("x/data/zz".toList)
    (fun d => d == ("x/data/zz".toList)) (fun _ => []) (fun _ => []) rfl rfl).1 rfl

/-- C8: the value send_message returns is exactly the responder
invocation result; the tracker outcome (timeout, spawn failure, join
failure, non-zero exit, completion) reaches only the log and never the
returned value, which is identical under any two tracker outcomes. -/
theorem C8_tracker_isolated (exe_dir : List Char) (dir_exists : List Char → Bool)
    (message language lang_dir : List Char)
    (t1 t2 : TrackerOutcome) (responder : SpawnOutcome)
    (hok : get_language_dir exe_dir language = .ok lang_dir)
    (hex : dir_exists lang_dir = true) :
    (send_message exe_dir dir_exists message language t1 responder).1 =
      run_responder_agent responder ∧
    (send_message exe_dir dir_exists message language t1 responder).1 =
      (send_message exe_dir dir_exists message language t2 responder).1 := by
  have hgen : ∀ t, (send_message exe_dir dir_exists message language t responder).1 =
      run_responder_agent responder := by
    intro t
    simp [send_message, hok, hex]
  exact ⟨hgen t1, (hgen t1).trans (hgen t2).symm⟩

/-- C8 witness: with a timing-out tracker and a successful responder on
a bootstrapped workspace, the returned value is the responder-trimmed
stdout. -/
theorem C8_tracker_isolated_witness :
    (send_message ("x".toList) (fun d => d == ("x/data/zz".toList)) ("hi".toList)
      ("zz".toList) .timeout (.completed true (" ok ".toList) [])).1 =
      run_responder_agent (.completed true (" ok ".toList) []) ∧
    (send_message ("x".toList) (fun d => d == ("x/data/zz".toList)) ("hi".toList)
      ("zz".toList) .timeout (.completed true (" ok ".toList) [])).1 =
      (send_message ("x".toList) (fun d => d == ("x/data/zz".toList)) ("hi".toList)
        ("zz".toList) (.commandError ("boom".toList))
        (.completed true (" ok ".toList) [])).1 :=
  C8_tracker_isolated ("x".toList) (fun d => d == ("x/data/zz".toList))
    ("hi".toList) ("zz".toList) ("x/data/zz".toList) .timeout
    (.commandError ("boom".toList)) (.completed true (" ok ".toList) []) rfl rfl

/-- C5: the SM-2 correct-use transition of the tracker instruction
text: repetitions 0 becomes 1 with interval 1; repetitions 1, interval
1 becomes 2 with interval 6; repetitions 2, interval 6, ease 2.5
becomes 3 with interval round(6 x 2.5) = 15; and next-review is always
today + interval. -/
theorem C5_sm2_transitions (today : ℤ) (it0 it1 it2 : VocabItem)
    (h0 : it0.repetitions = 0)
    (h1r : it1.repetitions = 1) (h1i : it1.interval = 1)
    (h2r : it2.repetitions = 2) (h2i : it2.interval = 6) (h2e : it2.ease = 5 / 2) :
    (applyCorrectUse today it0).repetitions = 1 ∧
    (applyCorrectUse today it0).interval = 1 ∧
    (applyCorrectUse today it1).repetitions = 2 ∧
    (applyCorrectUse today it1).interval = 6 ∧
    (applyCorrectUse today it2).repetitions = 3 ∧
    (applyCorrectUse today it2).interval = 15 ∧
    ∀ item, (applyCorrectUse today item).next_review =
      today + (applyCorrectUse today item).interval := by
  refine ⟨?_, ?_, ?_, ?_, ?_, ?_, ?_⟩
  · simp [applyCorrectUse, h0]
  · simp [applyCorrectUse, h0]
  · simp [applyCorrectUse, h1r]
  · simp [applyCorrectUse, h1r]
  · simp [applyCorrectUse, h2r]
  · simp [applyCorrectUse, h2r, h2i, h2e]
    norm_num [round_eq]
  · intro item
    simp [applyCorrectUse]

/-- C5 witness: the three transitions at concrete items with today = 0. -/
theorem C5_sm2_transitions_witness :
    (applyCorrectUse 0 ⟨5 / 2, 0, 0, 0⟩).repetitions = 1 ∧
    (applyCorrectUse 0 ⟨5 / 2, 0, 0, 0⟩).interval = 1 ∧
    (applyCorrectUse 0 ⟨5 / 2, 1, 1, 0⟩).repetitions = 2 ∧
    (applyCorrectUse 0 ⟨5 / 2, 1, 1, 0⟩).interval = 6 ∧
    (applyCorrectUse 0 ⟨5 / 2, 6, 2, 0⟩).repetitions = 3 ∧
    (applyCorrectUse 0 ⟨5 / 2, 6, 2, 0⟩).interval = 15 ∧
    ∀ item, (applyCorrectUse 0 item).next_review =
      0 + (applyCorrectUse 0 item).interval :=
  C5_sm2_transitions 0 ⟨5 / 2, 0, 0, 0⟩ ⟨5 / 2, 1, 1, 0⟩ ⟨5 / 2, 6, 2, 0⟩
    rfl rfl rfl rfl rfl rfl

end Tutor
